import Mathlib

/-!
Verification of the filesystem-operations engine of `mwc-loader` (`src/main.py`).

The program manipulates one installation root through four marker entries that
may exist directly under it:
  `mywintercar.exe`, `mywintercar_Data`  (primary naming, "mwc")
  `mysummercar.exe`, `mysummercar_Data`  (alternate naming, "msc")

Shallow embedding conventions:
* A directory's marker-level state is the quadruple of existence booleans
  (`GameDir`).  `Path.exists()` on a child of a missing directory swallows
  ENOENT/ENOTDIR and returns `False`, so a non-existent root is the
  all-false quadruple.  On the CPython versions this code targets
  (3.10-3.12), `Path.exists()` re-raises other `OSError`s such as
  `PermissionError`, so a probe under an inaccessible directory raises
  instead; `Probe`/`GameDirProbes`/`looks_like_mwc_folder_io` make that
  outcome explicit where it matters.
* I/O outcomes that the Python code observes through exceptions (a rename
  raising, `shutil.copytree` failing, `create_backup` returning `None`)
  are injected as explicit boolean parameters; the embedding then follows the
  source's `try`/`except` control flow literally.
* GUI dialogs only gate the flow (`QMessageBox.question` answers, selected
  path present); they are injected booleans as well.
-/

namespace MwcLoader

/-- Existence of the four marker entries directly under one installation root
(`src/main.py` lines 111-121, 793-796, 842-845). -/
structure GameDir where
  exe_mwc : Bool
  data_mwc : Bool
  exe_msc : Bool
  data_msc : Bool
deriving DecidableEq, Repr

instance : Fintype GameDir :=
  Fintype.ofEquiv (Bool × Bool × Bool × Bool)
    { toFun := fun p => ⟨p.1, p.2.1, p.2.2.1, p.2.2.2⟩
      invFun := fun g => (g.exe_mwc, g.data_mwc, g.exe_msc, g.data_msc)
      left_inv := fun _ => rfl
      right_inv := fun _ => rfl }

/-- Marker state of a directory that does not exist: every
`(path / child).exists()` check swallows ENOENT/ENOTDIR and yields `False`.
(An inaccessible directory behaves differently: its probes raise — see
`Probe` and `looks_like_mwc_folder_io`.) -/
def GameDir.nonexistent : GameDir := ⟨false, false, false, false⟩

/-- `looks_like_mwc_folder` (`src/main.py` lines 111-121): the primary pair
both exist, or the alternate pair both exist. -/
def looks_like_mwc_folder (g : GameDir) : Bool :=
  if g.exe_mwc && g.data_mwc then true
  else if g.exe_msc && g.data_msc then true
  else false

/-- Spec-side formulation of `looksLikeInstallation` (spec §4.1), written from
the spec's words, to be compared with the source definition. -/
def looksLikeInstallation_spec (g : GameDir) : Prop :=
  (g.exe_mwc = true ∧ g.data_mwc = true) ∨ (g.exe_msc = true ∧ g.data_msc = true)

instance (g : GameDir) : Decidable (looksLikeInstallation_spec g) := by
  unfold looksLikeInstallation_spec; infer_instance

/-- Outcome of one `Path.exists()` probe: the entry exists, it does not
exist (pathlib swallows ENOENT/ENOTDIR/EBADF/ELOOP and returns `False`),
or the probe raises (on CPython 3.10-3.12 `Path.exists()` re-raises any
other `OSError`, e.g. `PermissionError` under an unreadable directory). -/
inductive Probe where
  | found : Probe
  | missing : Probe
  | raised : Probe
deriving DecidableEq, Repr

instance : Fintype Probe :=
  Fintype.ofList [Probe.found, Probe.missing, Probe.raised]
    (fun x => by cases x <;> simp)

/-- The I/O outcomes of the four marker probes of one root. -/
structure GameDirProbes where
  exe_mwc : Probe
  data_mwc : Probe
  exe_msc : Probe
  data_msc : Probe
deriving DecidableEq, Repr

instance : Fintype GameDirProbes :=
  Fintype.ofEquiv (Probe × Probe × Probe × Probe)
    { toFun := fun p => ⟨p.1, p.2.1, p.2.2.1, p.2.2.2⟩
      invFun := fun g => (g.exe_mwc, g.data_mwc, g.exe_msc, g.data_msc)
      left_inv := fun _ => rfl
      right_inv := fun _ => rfl }

/-- Running one probe: `Path.exists()` returns a boolean or raises. -/
def Probe.run : Probe → Except Unit Bool
  | .found => .ok true
  | .missing => .ok false
  | .raised => .error ()

/-- Whether none of the root's four probes raises. -/
def GameDirProbes.raiseFree (g : GameDirProbes) : Bool :=
  !(g.exe_mwc == .raised) && !(g.data_mwc == .raised) &&
    !(g.exe_msc == .raised) && !(g.data_msc == .raised)

/-- Boolean marker state read off raise-free probes (`found ↦ true`). -/
def GameDirProbes.toGameDir (g : GameDirProbes) : GameDir :=
  ⟨g.exe_mwc == .found, g.data_mwc == .found,
   g.exe_msc == .found, g.data_msc == .found⟩

/-- Probes of a root that does not exist: every child probe returns
`False`. -/
def GameDirProbes.allMissing : GameDirProbes := ⟨.missing, .missing, .missing, .missing⟩

/-- Probes of an existing root that cannot be read: every child
`Path.exists()` raises `PermissionError`. -/
def deniedDirProbes : GameDirProbes := ⟨.raised, .raised, .raised, .raised⟩

/-- `looks_like_mwc_folder` with the I/O outcome of each `Path.exists()`
probe made explicit (`src/main.py` lines 111-121): the probes run in
source order with Python's short-circuit `and`; the function has no
`try`/`except`, so the first raising probe aborts the call with the
exception. -/
def looks_like_mwc_folder_io (g : GameDirProbes) : Except Unit Bool :=
  match Probe.run g.exe_mwc with
  | .error e => .error e
  | .ok e1 =>
    match (if e1 then Probe.run g.data_mwc else .ok false) with
    | .error e => .error e
    | .ok c1 =>
      if c1 then .ok true
      else
        match Probe.run g.exe_msc with
        | .error e => .error e
        | .ok e2 =>
          match (if e2 then Probe.run g.data_msc else .ok false) with
          | .error e => .error e
          | .ok c2 => if c2 then .ok true else .ok false

/-- Which of the two coupled renames an error report points at (the exception
text of `Path.rename` names the entry being renamed). -/
inductive RenameStep where
  | exe : RenameStep
  | data : RenameStep
deriving DecidableEq, Repr

/-- Injected environment of one `on_fix_clicked` run: GUI gates and I/O
outcomes observed during the action (`src/main.py` lines 759-808). -/
structure FixEnv where
  hasPath : Bool
  userConfirms : Bool
  backupOk : Bool
  failExeRename : Bool
  failDataRename : Bool
deriving DecidableEq, Repr

instance : Fintype FixEnv :=
  Fintype.ofEquiv (Bool × Bool × Bool × Bool × Bool)
    { toFun := fun p => ⟨p.1, p.2.1, p.2.2.1, p.2.2.2.1, p.2.2.2.2⟩
      invFun := fun e => (e.hasPath, e.userConfirms, e.backupOk, e.failExeRename, e.failDataRename)
      left_inv := fun _ => rfl
      right_inv := fun _ => rfl }

/-- Injected environment of one `on_revert_clicked` run (`src/main.py`
lines 836-874): no backup gate exists in that handler. -/
structure RevertEnv where
  hasPath : Bool
  userConfirms : Bool
  failExeRename : Bool
  failDataRename : Bool
deriving DecidableEq, Repr

instance : Fintype RevertEnv :=
  Fintype.ofEquiv (Bool × Bool × Bool × Bool)
    { toFun := fun p => ⟨p.1, p.2.1, p.2.2.1, p.2.2.2⟩
      invFun := fun e => (e.hasPath, e.userConfirms, e.failExeRename, e.failDataRename)
      left_inv := fun _ => rfl
      right_inv := fun _ => rfl }

/-- Outcome of `on_fix_clicked`, one constructor per exit point of the
handler (`src/main.py` lines 759-834). -/
inductive FixResult where
  | noFolder : FixResult
  | notValid : FixResult
  | cancelled : FixResult
  | backupFailed : FixResult
  | renameError : RenameStep → FixResult
  | success : FixResult
deriving DecidableEq, Repr

/-- Outcome of `on_revert_clicked` (`src/main.py` lines 836-874). -/
inductive RevertResult where
  | noFolder : RevertResult
  | cancelled : RevertResult
  | renameError : RenameStep → RevertResult
  | success : RevertResult
deriving DecidableEq, Repr

/-- Observable effect of one fix action: the exit taken, the marker state of
the root afterwards, the successful renames in the order they were logged,
and the completed backup folders created under `Backups/` (each a copy of the
tree as it was when `shutil.copytree` ran; a failed `create_backup` returns
`None` and yields no completed backup record). -/
structure FixOut where
  result : FixResult
  game : GameDir
  renames : List RenameStep
  backupsMade : List GameDir
deriving DecidableEq, Repr

/-- Observable effect of one revert action. -/
structure RevertOut where
  result : RevertResult
  game : GameDir
  renames : List RenameStep
  backupsMade : List GameDir
deriving DecidableEq, Repr

/-- `MWCFixerWindow.on_fix_clicked` (`src/main.py` lines 759-808) at marker
granularity.  Control flow follows the source: no-folder guard, validity
guard, confirmation dialog, `create_backup` (abort on `None`), then the two
renames inside one `try` block — `mywintercar.exe → mysummercar.exe` first,
`mywintercar_Data → mysummercar_Data` second, each skipped when the source
entry is absent, the whole action aborted by the shared `except` when an
attempted rename raises.  Steps after line 808 (shortcut, FMF overlay copy)
never touch the four marker entries' renames and are outside this model. -/
def on_fix_clicked (env : FixEnv) (g : GameDir) : FixOut :=
  if env.hasPath = false then ⟨.noFolder, g, [], []⟩
  else if looks_like_mwc_folder g = false then ⟨.notValid, g, [], []⟩
  else if env.userConfirms = false then ⟨.cancelled, g, [], []⟩
  else if env.backupOk = false then ⟨.backupFailed, g, [], []⟩
  else
    let made : List GameDir := [g]
    if g.exe_mwc then
      if env.failExeRename then ⟨.renameError .exe, g, [], made⟩
      else
        let g1 : GameDir := { g with exe_mwc := false, exe_msc := true }
        if g1.data_mwc then
          if env.failDataRename then ⟨.renameError .data, g1, [.exe], made⟩
          else ⟨.success, { g1 with data_mwc := false, data_msc := true }, [.exe, .data], made⟩
        else ⟨.success, g1, [.exe], made⟩
    else
      if g.data_mwc then
        if env.failDataRename then ⟨.renameError .data, g, [], made⟩
        else ⟨.success, { g with data_mwc := false, data_msc := true }, [.data], made⟩
      else ⟨.success, g, [], made⟩

/-- `MWCFixerWindow.on_revert_clicked` (`src/main.py` lines 836-874) at marker
granularity: no-folder guard, confirmation dialog, then the two renames in
one `try` block — `mysummercar.exe → mywintercar.exe` first,
`mysummercar_Data → mywintercar_Data` second, skip-if-absent, shared
`except`.  The handler never calls `create_backup`, so `backupsMade` is
empty on every exit. -/
def on_revert_clicked (env : RevertEnv) (g : GameDir) : RevertOut :=
  if env.hasPath = false then ⟨.noFolder, g, [], []⟩
  else if env.userConfirms = false then ⟨.cancelled, g, [], []⟩
  else
    if g.exe_msc then
      if env.failExeRename then ⟨.renameError .exe, g, [], []⟩
      else
        let g1 : GameDir := { g with exe_msc := false, exe_mwc := true }
        if g1.data_msc then
          if env.failDataRename then ⟨.renameError .data, g1, [.exe], []⟩
          else ⟨.success, { g1 with data_msc := false, data_mwc := true }, [.exe, .data], []⟩
        else ⟨.success, g1, [.exe], []⟩
    else
      if g.data_msc then
        if env.failDataRename then ⟨.renameError .data, g, [], []⟩
        else ⟨.success, { g with data_msc := false, data_mwc := true }, [.data], []⟩
      else ⟨.success, g, [], []⟩

/-- Number of executable markers present under the root. -/
def exeMarkers (g : GameDir) : Nat :=
  (if g.exe_mwc then 1 else 0) + (if g.exe_msc then 1 else 0)

/-- Number of data-folder markers present under the root. -/
def dataMarkers (g : GameDir) : Nat :=
  (if g.data_mwc then 1 else 0) + (if g.data_msc then 1 else 0)

/-- Environment of a fix run where every gate passes and no I/O failure is
injected. -/
def fixEnvClean : FixEnv := ⟨true, true, true, false, false⟩

/-- Environment of a fix run where every gate passes but the data-folder
rename raises. -/
def fixFailDataEnv : FixEnv := ⟨true, true, true, false, true⟩

/-- Environment of a fix run where every gate passes but `create_backup`
returns `None`. -/
def fixBackupFailEnv : FixEnv := ⟨true, true, false, false, false⟩

/-- Environment of a revert run where every gate passes and no I/O failure is
injected. -/
def revertEnvClean : RevertEnv := ⟨true, true, false, false⟩

/-- Root carrying exactly the primary-named pair. -/
def primaryOnlyDir : GameDir := ⟨true, true, false, false⟩

/-- Root carrying the alternate pair plus a leftover `mywintercar_Data`. -/
def alternatePlusDataDir : GameDir := ⟨false, true, true, true⟩

/-- Claim C1: if `create_backup` fails (returns no backup record) during a
fix action, the fix performs neither of the two renames and the marker
entries of the installation root are exactly as they were before. -/
theorem fix_backup_failed_blocks_renames :
    ∀ (env : FixEnv) (g : GameDir), env.backupOk = false →
      (on_fix_clicked env g).renames = [] ∧ (on_fix_clicked env g).game = g := by
  decide

/-- Witness for `fix_backup_failed_blocks_renames` at a concrete run: valid
primary-named root, all gates pass, backup fails. -/
theorem fix_backup_failed_blocks_renames_witness :
    (on_fix_clicked fixBackupFailEnv primaryOnlyDir).renames = [] ∧
    (on_fix_clicked fixBackupFailEnv primaryOnlyDir).game = primaryOnlyDir :=
  fix_backup_failed_blocks_renames fixBackupFailEnv primaryOnlyDir rfl

/-- Claim C3, counterexample: a revert on a root with no markers at all
(revert validates nothing) runs to the success exit and leaves a tree with
neither executable marker and neither data-folder marker, contradicting
"a successful operation never produces a tree with ... neither". -/
theorem revert_success_neither_marker_cex :
    (on_revert_clicked revertEnvClean GameDir.nonexistent).result = .success ∧
    (on_revert_clicked revertEnvClean GameDir.nonexistent).game.exe_mwc = false ∧
    (on_revert_clicked revertEnvClean GameDir.nonexistent).game.exe_msc = false ∧
    (on_revert_clicked revertEnvClean GameDir.nonexistent).game.data_mwc = false ∧
    (on_revert_clicked revertEnvClean GameDir.nonexistent).game.data_msc = false := by
  decide

/-- Claim C3 as amended: after any successful fix, exactly one executable
marker and exactly one data-folder marker exist (never both, never neither);
after any successful revert, at most one of each exists — but a successful
revert may leave neither marker of a kind, since revert skips absent
alternate-named entries without validating the folder. -/
theorem fix_revert_marker_invariant :
    (∀ (env : FixEnv) (g : GameDir), (on_fix_clicked env g).result = .success →
      exeMarkers (on_fix_clicked env g).game = 1 ∧
      dataMarkers (on_fix_clicked env g).game = 1) ∧
    (∀ (env : RevertEnv) (g : GameDir), (on_revert_clicked env g).result = .success →
      exeMarkers (on_revert_clicked env g).game ≤ 1 ∧
      dataMarkers (on_revert_clicked env g).game ≤ 1) := by
  decide

/-- Witness for `fix_revert_marker_invariant` at a concrete successful fix of
a primary-named root. -/
theorem fix_revert_marker_invariant_witness :
    exeMarkers (on_fix_clicked fixEnvClean primaryOnlyDir).game = 1 ∧
    dataMarkers (on_fix_clicked fixEnvClean primaryOnlyDir).game = 1 :=
  fix_revert_marker_invariant.1 fixEnvClean primaryOnlyDir rfl

/-- Claim C6, counterexample: with the data-folder rename raising, the run on
`primaryOnlyDir` first performs the executable rename (a partial transform)
while the run on `alternatePlusDataDir` fails the same rename with no rename
performed at all — yet both runs report the identical result, so the two
outcomes are not distinguishable in the reported result. -/
theorem fix_partial_not_distinguished_cex :
    (on_fix_clicked fixFailDataEnv primaryOnlyDir).result =
      (on_fix_clicked fixFailDataEnv alternatePlusDataDir).result ∧
    (on_fix_clicked fixFailDataEnv primaryOnlyDir).renames = [RenameStep.exe] ∧
    (on_fix_clicked fixFailDataEnv alternatePlusDataDir).renames = [] := by
  decide

/-- Claim C6 as amended: `on_fix_clicked` funnels every rename failure
through one shared `except` branch; a failure of the data-folder rename is
reported as the same condition whether or not the executable rename was
performed first, so a partial transform is not surfaced as a distinct
condition (only the preceding log line differs). -/
theorem fix_data_rename_failure_uniform_report :
    ∀ (env : FixEnv) (g : GameDir),
      env.hasPath = true → env.userConfirms = true → env.backupOk = true →
      looks_like_mwc_folder g = true → g.data_mwc = true → env.failDataRename = true →
      (g.exe_mwc = true → env.failExeRename = false) →
      (on_fix_clicked env g).result = .renameError .data := by
  decide

/-- Witness for `fix_data_rename_failure_uniform_report` at the concrete
partial-transform run. -/
theorem fix_data_rename_failure_uniform_report_witness :
    (on_fix_clicked fixFailDataEnv primaryOnlyDir).result = .renameError .data :=
  fix_data_rename_failure_uniform_report fixFailDataEnv primaryOnlyDir
    rfl rfl rfl rfl rfl rfl (fun _ => rfl)

instance {e a : Type} [DecidableEq e] [DecidableEq a] : DecidableEq (Except e a) :=
  fun x y =>
    match x, y with
    | .error u, .error v =>
      if h : u = v then isTrue (by rw [h])
      else isFalse (fun hh => h (by cases hh; rfl))
    | .ok u, .ok v =>
      if h : u = v then isTrue (by rw [h])
      else isFalse (fun hh => h (by cases hh; rfl))
    | .error _, .ok _ => isFalse (fun hh => Except.noConfusion hh)
    | .ok _, .error _ => isFalse (fun hh => Except.noConfusion hh)

/-- Claim C4, counterexample: on an inaccessible root — nothing readable
there, so certainly no complete marker pair — `looks_like_mwc_folder`
propagates the `PermissionError` of its first `exists()` probe (it has no
`try`/`except`) instead of returning `false`. -/
theorem looks_like_raises_on_denied_cex :
    looks_like_mwc_folder_io deniedDirProbes = .error () ∧
    looks_like_mwc_folder_io deniedDirProbes ≠ .ok false :=
  ⟨rfl, fun h => Except.noConfusion h⟩

/-- Claim C4 as amended: `looks_like_mwc_folder` returns `true` iff the
primary executable-and-data pair both exist or the alternate pair both
exist; whenever every `exists()` probe completes without raising it agrees
with the boolean reading of the probes, and in particular returns `false`
on a non-existent root (whose probes all return `False`); but a probe that
raises — an inaccessible path — aborts the call with the exception rather
than returning `false`. -/
theorem looks_like_mwc_folder_iff_spec :
    (∀ g : GameDir, looks_like_mwc_folder g = true ↔ looksLikeInstallation_spec g) ∧
    (∀ g : GameDirProbes, g.raiseFree = true →
      looks_like_mwc_folder_io g = .ok (looks_like_mwc_folder g.toGameDir)) ∧
    looks_like_mwc_folder_io GameDirProbes.allMissing = .ok false := by
  refine ⟨by decide, by decide, rfl⟩

/-- Witness for `looks_like_mwc_folder_iff_spec` at a concrete raise-free
probe quadruple (primary pair present). -/
theorem looks_like_mwc_folder_iff_spec_witness :
    looks_like_mwc_folder_io ⟨.found, .found, .missing, .missing⟩ =
      .ok (looks_like_mwc_folder
        (GameDirProbes.toGameDir ⟨.found, .found, .missing, .missing⟩)) :=
  looks_like_mwc_folder_iff_spec.2.1 ⟨.found, .found, .missing, .missing⟩ rfl

/-- Claim C7: on a valid, fully primary-named root, a successful fix followed
by a successful revert restores the original marker set exactly. -/
theorem fix_then_revert_round_trip :
    ∀ (ef : FixEnv) (er : RevertEnv) (g : GameDir),
      g.exe_mwc = true → g.data_mwc = true → g.exe_msc = false → g.data_msc = false →
      (on_fix_clicked ef g).result = .success →
      (on_revert_clicked er (on_fix_clicked ef g).game).result = .success →
      (on_revert_clicked er (on_fix_clicked ef g).game).game = g := by
  decide

/-- Witness for `fix_then_revert_round_trip`: clean fix and revert of the
primary-named root. -/
theorem fix_then_revert_round_trip_witness :
    (on_revert_clicked revertEnvClean
      (on_fix_clicked fixEnvClean primaryOnlyDir).game).game = primaryOnlyDir :=
  fix_then_revert_round_trip fixEnvClean revertEnvClean primaryOnlyDir
    rfl rfl rfl rfl rfl rfl

set_option maxHeartbeats 1000000 in
/-- Claim C8: after a successful fix, a second fix whose gates pass succeeds
again with zero renames performed (absent primary-named entries are skipped,
not an error) and leaves the marker set unchanged; likewise for two
successive reverts. -/
theorem fix_and_revert_idempotent :
    (∀ (e1 e2 : FixEnv) (g : GameDir),
      (on_fix_clicked e1 g).result = .success →
      e2.hasPath = true → e2.userConfirms = true → e2.backupOk = true →
      (on_fix_clicked e2 (on_fix_clicked e1 g).game).result = .success ∧
      (on_fix_clicked e2 (on_fix_clicked e1 g).game).renames = [] ∧
      (on_fix_clicked e2 (on_fix_clicked e1 g).game).game = (on_fix_clicked e1 g).game) ∧
    (∀ (r1 r2 : RevertEnv) (g : GameDir),
      (on_revert_clicked r1 g).result = .success →
      r2.hasPath = true → r2.userConfirms = true →
      (on_revert_clicked r2 (on_revert_clicked r1 g).game).result = .success ∧
      (on_revert_clicked r2 (on_revert_clicked r1 g).game).renames = [] ∧
      (on_revert_clicked r2 (on_revert_clicked r1 g).game).game =
        (on_revert_clicked r1 g).game) := by
  refine ⟨?_, ?_⟩ <;> decide

/-- Witness for `fix_and_revert_idempotent`: two clean fixes in a row on the
primary-named root. -/
theorem fix_and_revert_idempotent_witness :
    (on_fix_clicked fixEnvClean (on_fix_clicked fixEnvClean primaryOnlyDir).game).result =
      .success ∧
    (on_fix_clicked fixEnvClean (on_fix_clicked fixEnvClean primaryOnlyDir).game).renames =
      [] ∧
    (on_fix_clicked fixEnvClean (on_fix_clicked fixEnvClean primaryOnlyDir).game).game =
      (on_fix_clicked fixEnvClean primaryOnlyDir).game :=
  fix_and_revert_idempotent.1 fixEnvClean fixEnvClean primaryOnlyDir rfl rfl rfl rfl

/-- Claim C10: a revert never invokes `create_backup` — its backup effect is
empty on every run, including runs that performed renames — while fix is
asymmetric: with a failed backup it performs no renames and cannot succeed,
and whenever it renamed anything a completed backup of the pre-state had
been made. -/
theorem revert_no_backup_asymmetry :
    (∀ (env : RevertEnv) (g : GameDir), (on_revert_clicked env g).backupsMade = []) ∧
    (∀ (env : FixEnv) (g : GameDir), env.backupOk = false →
      (on_fix_clicked env g).renames = [] ∧
      (on_fix_clicked env g).backupsMade = [] ∧
      (on_fix_clicked env g).result ≠ .success) ∧
    (∀ (env : FixEnv) (g : GameDir), (on_fix_clicked env g).renames ≠ [] →
      (on_fix_clicked env g).backupsMade = [g]) := by
  decide

/-- Witness for `revert_no_backup_asymmetry`: a revert that renames both
alternate-named entries still creates no backup. -/
theorem revert_no_backup_asymmetry_witness :
    (on_revert_clicked revertEnvClean ⟨false, false, true, true⟩).backupsMade = [] :=
  revert_no_backup_asymmetry.1 revertEnvClean ⟨false, false, true, true⟩

/-- One entry of the recursive walk `shutil.copytree` performs over the
source tree: its path relative to the source root, whether it is a
directory, and its bytes (empty for a directory). -/
structure FsEntry where
  relPath : List String
  isDir : Bool
  content : String
deriving DecidableEq, Repr

/-- `shutil.copytree` as called by `create_backup` (`src/main.py` line 222):
the source tree is copied entry by entry in walk order into the fresh
destination.  `fail i = true` injects an I/O failure (disk full, permission
error, file vanishing mid-copy) on the i-th entry; any per-entry failure
makes the call raise (`shutil.Error` collects per-file errors and is raised,
directory errors raise `OSError` directly), modelled as `none`. -/
def copytree (fail : Nat → Bool) : Nat → List FsEntry → Option (List FsEntry)
  | _, [] => some []
  | i, e :: rest =>
    if fail i then none
    else
      match copytree fail (i + 1) rest with
      | none => none
      | some copied => some (e :: copied)

/-- `create_backup` (`src/main.py` lines 213-226): returns `None` when the
source root does not exist, otherwise the destination written by
`shutil.copytree`, with every exception caught and turned into `None`.
The timestamped destination name and the log lines carry no tree content
and are outside the model. -/
def create_backup (game_folder_exists : Bool) (fail : Nat → Bool)
    (tree : List FsEntry) : Option (List FsEntry) :=
  if game_folder_exists = false then none
  else copytree fail 0 tree

theorem copytree_eq_some (fail : Nat → Bool) :
    ∀ (tree : List FsEntry) (i : Nat) (d : List FsEntry),
      copytree fail i tree = some d →
      d = tree ∧ ∀ j, j < tree.length → fail (i + j) = false := by
  intro tree
  induction tree with
  | nil =>
    intro i d h
    simp [copytree] at h
    subst h
    simp
  | cons e rest ih =>
    intro i d h
    unfold copytree at h
    by_cases hf : fail i = true
    · simp [hf] at h
    · simp [hf] at h
      cases hrec : copytree fail (i + 1) rest with
      | none => rw [hrec] at h; simp at h
      | some copied =>
        rw [hrec] at h
        simp at h
        obtain ⟨hcopied, hfails⟩ := ih (i + 1) copied hrec
        refine ⟨by simp [h.symm, hcopied], ?_⟩
        intro j hj
        cases j with
        | zero => simpa using Bool.of_not_eq_true hf
        | succ k =>
          have : i + (k + 1) = (i + 1) + k := by omega
          rw [this]
          exact hfails k (by simpa using hj)

theorem copytree_eq_none (fail : Nat → Bool) :
    ∀ (tree : List FsEntry) (i : Nat),
      (∃ j, j < tree.length ∧ fail (i + j) = true) →
      copytree fail i tree = none := by
  intro tree
  induction tree with
  | nil =>
    intro i h
    obtain ⟨j, hj, _⟩ := h
    simp at hj
  | cons e rest ih =>
    intro i h
    obtain ⟨j, hj, hf⟩ := h
    unfold copytree
    by_cases hfi : fail i = true
    · simp [hfi]
    · simp [hfi]
      cases j with
      | zero => simp at hf; exact absurd hf hfi
      | succ k =>
        have hrw : i + (k + 1) = (i + 1) + k := by omega
        rw [hrw] at hf
        rw [ih (i + 1) ⟨k, by simpa using hj, hf⟩]

/-- Claim C2: `create_backup` is all-or-nothing at the record level — a
returned record means the source root existed and the destination is the
complete, entry-for-entry copy of the source tree, while a missing source
root or an injected failure on any entry of the copy yields no record. -/
theorem create_backup_all_or_nothing (ex : Bool) (fail : Nat → Bool)
    (tree : List FsEntry) :
    (∀ d, create_backup ex fail tree = some d → ex = true ∧ d = tree) ∧
    ((ex = false ∨ ∃ j, j < tree.length ∧ fail j = true) →
      create_backup ex fail tree = none) := by
  constructor
  · intro d h
    cases ex with
    | false => simp [create_backup] at h
    | true =>
      simp only [create_backup, Bool.true_eq_false, if_false] at h
      exact ⟨rfl, (copytree_eq_some fail tree 0 d h).1⟩
  · rintro (rfl | ⟨j, hj, hf⟩)
    · rfl
    · cases ex with
      | false => rfl
      | true =>
        simp only [create_backup, Bool.true_eq_false, if_false]
        exact copytree_eq_none fail tree 0 ⟨j, hj, by simpa using hf⟩

/-- Concrete three-entry source tree used to exercise `create_backup`. -/
def exampleTree : List FsEntry :=
  [⟨["mywintercar.exe"], false, "MZ"⟩,
   ⟨["mywintercar_Data"], true, ""⟩,
   ⟨["mywintercar_Data", "level.dat"], false, "bytes"⟩]

/-- Witness for `create_backup_all_or_nothing`: injecting a failure on entry
1 of the three-entry tree yields no backup record. -/
theorem create_backup_all_or_nothing_witness :
    create_backup true (fun j => decide (j = 1)) exampleTree = none :=
  (create_backup_all_or_nothing true (fun j => decide (j = 1)) exampleTree).2
    (Or.inr ⟨1, by decide, by decide⟩)

/-- A directory as seen by the scanner: its entry name, the marker-existence
state `looks_like_mwc_folder` reads, and its immediate subdirectories (the
`os.scandir` results that pass `is_dir()`).  The scan never descends more
than one level below a scanned entry, so deeper levels are irrelevant. -/
inductive Dir where
  | mk (name : String) (markers : GameDir) (subdirs : List Dir)

/-- Entry name of a directory. -/
def Dir.name : Dir → String
  | .mk n _ _ => n

/-- Marker-existence state of a directory. -/
def Dir.markers : Dir → GameDir
  | .mk _ m _ => m

/-- Immediate subdirectories of a directory. -/
def Dir.subdirs : Dir → List Dir
  | .mk _ _ s => s

mutual
/-- Structural equality of directories, standing in for Python `Path`
equality used by the `checked` set and the candidate dedup test. -/
def Dir.beq : Dir → Dir → Bool
  | .mk n m s, .mk n' m' s' => n == n' && m == m' && Dir.beqList s s'

/-- Pointwise `Dir.beq` on lists. -/
def Dir.beqList : List Dir → List Dir → Bool
  | [], [] => true
  | a :: as, b :: bs => Dir.beq a b && Dir.beqList as bs
  | _, _ => false
end

instance : BEq Dir := ⟨Dir.beq⟩

/-- ASCII lowering of one character, as Python `str.lower()` acts on the
ASCII names involved here. -/
def py_lower_char (c : Char) : Char :=
  if 65 ≤ c.toNat ∧ c.toNat ≤ 90 then Char.ofNat (c.toNat + 32) else c

/-- Python `str.lower()` on ASCII names. -/
def py_lower (s : String) : String := ⟨s.data.map py_lower_char⟩

/-- Whether the first list is an initial segment of the second. -/
def charsStartWith : List Char → List Char → Bool
  | [], _ => true
  | _ :: _, [] => false
  | p :: ps, c :: cs => p == c && charsStartWith ps cs

/-- Python substring test `pat in text` on character lists. -/
def charsContain (pat : List Char) : List Char → Bool
  | [] => charsStartWith pat []
  | c :: cs => charsStartWith pat (c :: cs) || charsContain pat cs

/-- `BAD_DIRS` deny-list of `find_mwc_candidates` (`src/main.py`
lines 131-134). -/
def BAD_DIRS : List String :=
  ["windows", "programdata", "system volume information",
   "$recycle.bin", "recycler", "recovery", "tmp", "temp"]

/-- `TARGET_NAMES` loose name fragments of `find_mwc_candidates`
(`src/main.py` lines 136-141). -/
def TARGET_NAMES : List String :=
  ["my winter car", "winter", "mysummercar", "mywintercar"]

/-- The `for obj in os.scandir(path)` loop body of `fast_check`
(`src/main.py` lines 154-167): skip non-directories (already absent from
`subdirs`), skip subdirectories whose lowered name is deny-listed, and
return the first remaining subdirectory that has one of the two executable
markers directly inside and passes `looks_like_mwc_folder`. -/
def scan_subdirs : List Dir → Option Dir
  | [] => none
  | sub :: rest =>
    if List.elem (py_lower sub.name) BAD_DIRS then scan_subdirs rest
    else if (sub.markers.exe_mwc || sub.markers.exe_msc) &&
        looks_like_mwc_folder sub.markers then some sub
    else scan_subdirs rest

/-- `fast_check` (`src/main.py` lines 143-172): skip an already-checked
path; return the path itself when its lowered name contains one of the
target fragments and it passes `looks_like_mwc_folder`; otherwise scan its
immediate subdirectories.  An `os.scandir` exception makes the real
function return `None` after having examined nothing; the model's input
already carries the readable entries. -/
def fast_check (checked : List Dir) (d : Dir) : Option Dir :=
  if List.elem d checked then none
  else
    let name := py_lower d.name
    if (TARGET_NAMES.any fun t => charsContain t.data name.data) &&
        looks_like_mwc_folder d.markers then some d
    else scan_subdirs d.subdirs

/-- One completed `fast_check` future folded into the shared state
(`checked` set, deduplicated candidate list) — `src/main.py` lines 145-147
and 201-204. -/
def scan_step (acc : List Dir × List Dir) (entry : Dir) : List Dir × List Dir :=
  match fast_check acc.1 entry with
  | some c => (entry :: acc.1, if List.elem c acc.2 then acc.2 else acc.2 ++ [c])
  | none => (entry :: acc.1, acc.2)

/-- `find_mwc_candidates` (`src/main.py` lines 127-206) over an explicit
root list (the drive roots plus the well-known Steam library paths): every
immediate subdirectory of every root is submitted to `fast_check`, and
non-`None` results are collected with duplicates dropped.  The worker pool
only permutes completion order (the spec calls the order best-effort); the
model folds the futures in submission order. -/
def find_mwc_candidates (drives : List Dir) : List Dir :=
  ((drives.flatMap Dir.subdirs).foldl scan_step ([], [])).2

/-- No deny-listed name contains any of the target fragments, so the
fragment branch of `fast_check` never fires on a deny-listed name. -/
theorem target_fragment_not_in_bad_name :
    ∀ s ∈ BAD_DIRS, (TARGET_NAMES.any fun t => charsContain t.data s.data) = false := by
  decide

theorem scan_subdirs_not_denylisted :
    ∀ (l : List Dir) (c : Dir), scan_subdirs l = some c →
      List.elem (py_lower c.name) BAD_DIRS = false := by
  intro l
  induction l with
  | nil => intro c h; simp [scan_subdirs] at h
  | cons sub rest ih =>
    intro c h
    unfold scan_subdirs at h
    by_cases hbad : List.elem (py_lower sub.name) BAD_DIRS = true
    · rw [if_pos hbad] at h
      exact ih c h
    · rw [if_neg hbad] at h
      by_cases hexe : ((sub.markers.exe_mwc || sub.markers.exe_msc) &&
          looks_like_mwc_folder sub.markers) = true
      · rw [if_pos hexe] at h
        cases h
        simpa using hbad
      · rw [if_neg hexe] at h
        exact ih c h

theorem fast_check_not_denylisted (checked : List Dir) (d c : Dir)
    (h : fast_check checked d = some c) :
    List.elem (py_lower c.name) BAD_DIRS = false := by
  unfold fast_check at h
  by_cases hchk : List.elem d checked = true
  · rw [if_pos hchk] at h; exact absurd h (by simp)
  · rw [if_neg hchk] at h
    simp only [] at h
    by_cases hfrag : ((TARGET_NAMES.any fun t => charsContain t.data (py_lower d.name).data) &&
        looks_like_mwc_folder d.markers) = true
    · rw [if_pos hfrag] at h
      cases h
      by_cases hbad : List.elem (py_lower d.name) BAD_DIRS = true
      · have hmem : py_lower d.name ∈ BAD_DIRS := List.mem_of_elem_eq_true hbad
        have hfalse := target_fragment_not_in_bad_name (py_lower d.name) hmem
        have hany : (TARGET_NAMES.any fun t => charsContain t.data (py_lower d.name).data) = true := by
          simp only [Bool.and_eq_true] at hfrag
          exact hfrag.1
        rw [hany] at hfalse
        exact absurd hfalse (by simp)
      · simpa using hbad
    · rw [if_neg hfrag] at h
      exact scan_subdirs_not_denylisted d.subdirs c h

theorem scan_fold_preserves (P : Dir → Prop)
    (hP : ∀ checked e c, fast_check checked e = some c → P c) :
    ∀ (entries : List Dir) (acc : List Dir × List Dir),
      (∀ c ∈ acc.2, P c) → ∀ c ∈ (entries.foldl scan_step acc).2, P c := by
  intro entries
  induction entries with
  | nil => intro acc hacc c hc; exact hacc c hc
  | cons e rest ih =>
    intro acc hacc c hc
    rw [List.foldl_cons] at hc
    refine ih (scan_step acc e) ?_ c hc
    intro c' hc'
    unfold scan_step at hc'
    cases hfc : fast_check acc.1 e with
    | none => rw [hfc] at hc'; exact hacc c' hc'
    | some c0 =>
      rw [hfc] at hc'
      simp only [] at hc'
      by_cases hdup : List.elem c0 acc.2 = true
      · rw [if_pos hdup] at hc'; exact hacc c' hc'
      · rw [if_neg hdup] at hc'
        rcases List.mem_append.mp hc' with hold | hnew
        · exact hacc c' hold
        · rcases List.mem_singleton.mp hnew with rfl
          exact hP acc.1 e c' hfc

/-- Claim C5 as amended: the deny-list shields only the immediate
subdirectories examined inside `fast_check` — a deny-list-named
subdirectory there is skipped outright, so no candidate the scan returns is
itself deny-list-named; but a top-level directory under a scanned root is
never tested against the deny-list, so a candidate may still lie one level
inside a deny-listed directory (see the counterexample). -/
theorem scan_candidates_not_denylisted :
    ∀ (drives : List Dir) (c : Dir), c ∈ find_mwc_candidates drives →
      List.elem (py_lower c.name) BAD_DIRS = false := by
  intro drives c hc
  exact scan_fold_preserves
    (fun c => List.elem (py_lower c.name) BAD_DIRS = false)
    (fun checked e c h => fast_check_not_denylisted checked e c h)
    (drives.flatMap Dir.subdirs) ([], []) (by simp) c hc

/-- A valid primary-named installation whose name matches a target
fragment. -/
def steamGameDir : Dir := .mk "My Winter Car" primaryOnlyDir []

/-- A drive root whose only top-level directory is the installation. -/
def steamDrive : Dir := .mk "C:\\" GameDir.nonexistent [steamGameDir]

/-- Witness for `scan_candidates_not_denylisted` on a concrete scan that
returns one candidate. -/
theorem scan_candidates_not_denylisted_witness :
    List.elem (py_lower steamGameDir.name) BAD_DIRS = false :=
  scan_candidates_not_denylisted [steamDrive] steamGameDir
    (show steamGameDir ∈ [steamGameDir] from List.mem_singleton_self _)

/-- A valid primary-named installation folder named `game`, one level below
a deny-listed directory. -/
def gameUnderTemp : Dir := .mk "game" primaryOnlyDir []

/-- A deny-listed (`temp`) top-level directory containing the installation. -/
def tempTopDir : Dir := .mk "Temp" GameDir.nonexistent [gameUnderTemp]

/-- A drive root whose only top-level directory is the deny-listed one. -/
def driveWithTemp : Dir := .mk "C:\\" GameDir.nonexistent [tempTopDir]

/-- Claim C5, counterexample: scanning a root whose top-level directory
`Temp` is deny-listed still returns the candidate `game` nested one level
below it — the deny-list is only consulted for subdirectories inside
`fast_check`, never for the top-level entries of a root — contradicting
"no candidate returned by the scan lies inside a deny-listed directory". -/
theorem scan_denylisted_toplevel_cex :
    py_lower tempTopDir.name ∈ BAD_DIRS ∧
    gameUnderTemp ∈ tempTopDir.subdirs ∧
    find_mwc_candidates [driveWithTemp] = [gameUnderTemp] := by
  refine ⟨by decide, ?_, rfl⟩
  show gameUnderTemp ∈ [gameUnderTemp]
  exact List.mem_singleton_self _

/-- One directory visited by `os.walk("fmf")` inside `copy_fmf_to_game`:
its path relative to the overlay root (empty for the root itself) and the
files directly inside it as (name, bytes) pairs, in walk order. -/
structure WalkEntry where
  rel : List String
  files : List (String × String)
deriving DecidableEq, Repr

/-- The game-folder subtree the merge writes into: the set of directories
(as relative paths) and a path-to-bytes association for files (lookup
returns the first match; overwrite updates it in place). -/
structure FS where
  dirs : List (List String)
  files : List (List String × String)
deriving DecidableEq, Repr

/-- `shutil.copy2 src dest` onto the destination file association:
overwrite the entry at the path or add a new one. -/
def setFile : List (List String × String) → List String → String → List (List String × String)
  | [], p, c => [(p, c)]
  | (q, c') :: rest, p, c =>
    if q = p then (p, c) :: rest else (q, c') :: setFile rest p c

/-- Bytes of the destination file at a path, if any. -/
def getFile : List (List String × String) → List String → Option String
  | [], _ => none
  | (q, c) :: rest, p => if q = p then some c else getFile rest p

/-- The nonempty initial segments of a relative path, shortest first — the
directories needed on the way down to the path. -/
def initialSegs : List String → List (List String)
  | [] => []
  | x :: xs => [x] :: (initialSegs xs).map (fun p => x :: p)

/-- `dest_dir.mkdir(parents=True, exist_ok=True)`: create every missing
directory on the way to `rel`; the game root itself already exists. -/
def mkdirParentsExistOk (dirs : List (List String)) (rel : List String) :
    List (List String) :=
  (initialSegs rel).foldl (fun ds q => if q ∈ ds then ds else ds ++ [q]) dirs

/-- Body of the `for root, dirs, files in os.walk(base)` loop of
`copy_fmf_to_game` (`src/main.py` lines 294-310): mirror the directory
under the game root, bump the directory count unless it is the overlay root
itself, then copy every file to its mirrored path, bumping the file count.
A file whose `shutil.copy2` raises — `failCopy` injects that outcome at the
file's destination path — is logged and skipped (lines 303-310): the loop
continues, the count is not bumped, and the destination keeps whatever it
held at that path. -/
def copy_fmf_step (failCopy : List String → Bool) (acc : (Nat × Nat) × FS)
    (entry : WalkEntry) : (Nat × Nat) × FS :=
  let fs1 : FS := { acc.2 with dirs := mkdirParentsExistOk acc.2.dirs entry.rel }
  let nd := if entry.rel = [] then acc.1.2 else acc.1.2 + 1
  let stepf := entry.files.foldl
    (fun (st : Nat × List (List String × String)) fc =>
      if failCopy (entry.rel ++ [fc.1]) then st
      else (st.1 + 1, setFile st.2 (entry.rel ++ [fc.1]) fc.2))
    (acc.1.1, fs1.files)
  ((stepf.1, nd), { fs1 with files := stepf.2 })

/-- `copy_fmf_to_game` (`src/main.py` lines 280-313): nothing to copy when
the overlay root is missing, otherwise the walk fold over the overlay,
returning (files copied, directories copied) and the updated game tree. -/
def copy_fmf_to_game (failCopy : List String → Bool) (fmf_exists : Bool)
    (overlay : List WalkEntry) (game : FS) : (Nat × Nat) × FS :=
  if fmf_exists = false then ((0, 0), game)
  else overlay.foldl (copy_fmf_step failCopy) ((0, 0), game)

/-- First defined of two optional values. -/
def firstSome (a b : Option String) : Option String :=
  match a with
  | some c => some c
  | none => b

/-- Last-written content at overlay path `p` among the files of one walk
directory (the walk copies a directory's files in list order, later writes
winning). -/
def fileInFiles (rel : List String) (p : List String) :
    List (String × String) → Option String
  | [] => none
  | fc :: rest =>
    firstSome (fileInFiles rel p rest)
      (if rel ++ [fc.1] = p then some fc.2 else none)

/-- Last-written content at overlay path `p` over the whole walk. -/
def overlayFile (p : List String) : List WalkEntry → Option String
  | [] => none
  | e :: rest => firstSome (overlayFile p rest) (fileInFiles e.rel p e.files)

theorem firstSome_assoc (a b c : Option String) :
    firstSome a (firstSome b c) = firstSome (firstSome a b) c := by
  cases a <;> simp [firstSome]

theorem firstSome_none (a : Option String) : firstSome a none = a := by
  cases a <;> rfl

theorem getFile_setFile (m : List (List String × String)) (q p : List String)
    (c : String) :
    getFile (setFile m q c) p = if q = p then some c else getFile m p := by
  induction m with
  | nil => simp [setFile, getFile]
  | cons hd rest ih =>
    obtain ⟨r, c'⟩ := hd
    by_cases hrq : r = q
    · subst hrq
      by_cases hrp : r = p
      · subst hrp; simp [setFile, getFile]
      · simp [setFile, getFile, hrp]
    · by_cases hrp : r = p
      · subst hrp
        have hqr : ¬ q = r := fun hh => hrq hh.symm
        simp [setFile, getFile, hrq, hqr]
      · simp [setFile, getFile, hrq, hrp, ih]

theorem getFile_files_fold (failCopy : List String → Bool)
    (rel : List String) (p : List String) :
    ∀ (fls : List (String × String)) (n : Nat) (m : List (List String × String)),
      getFile ((fls.foldl (fun (st : Nat × List (List String × String)) fc =>
        if failCopy (rel ++ [fc.1]) then st
        else (st.1 + 1, setFile st.2 (rel ++ [fc.1]) fc.2)) (n, m)).2) p =
      (if failCopy p = true then getFile m p
       else firstSome (fileInFiles rel p fls) (getFile m p)) := by
  intro fls
  induction fls with
  | nil =>
    intro n m
    by_cases hp : failCopy p = true <;> simp [hp, fileInFiles, firstSome]
  | cons fc rest ih =>
    intro n m
    simp only [List.foldl_cons]
    by_cases hf : failCopy (rel ++ [fc.1]) = true
    · rw [if_pos hf, ih n m]
      by_cases hp : failCopy p = true
      · simp [hp]
      · have hne : ¬ rel ++ [fc.1] = p := fun hh => hp (hh ▸ hf)
        simp [hp, fileInFiles, hne, firstSome_none]
    · rw [if_neg hf, ih (n + 1) (setFile m (rel ++ [fc.1]) fc.2), getFile_setFile]
      by_cases hp : failCopy p = true
      · have hne : ¬ rel ++ [fc.1] = p := fun hh => by rw [hh] at hf; exact hf hp
        simp [hp, hne]
      · simp only [if_neg hp]
        rw [show fileInFiles rel p (fc :: rest) =
          firstSome (fileInFiles rel p rest)
            (if rel ++ [fc.1] = p then some fc.2 else none) from rfl]
        rw [← firstSome_assoc]
        by_cases h : rel ++ [fc.1] = p <;> simp [h, firstSome]

theorem mem_dedup_append_fold (l : List (List String)) :
    ∀ (ds : List (List String)) (q : List String),
      q ∈ l.foldl (fun ds x => if x ∈ ds then ds else ds ++ [x]) ds ↔
        q ∈ ds ∨ q ∈ l := by
  induction l with
  | nil => intro ds q; simp
  | cons x rest ih =>
    intro ds q
    rw [List.foldl_cons, ih]
    by_cases hx : x ∈ ds
    · simp only [if_pos hx, List.mem_cons]
      constructor
      · rintro (h | h)
        · exact Or.inl h
        · exact Or.inr (Or.inr h)
      · rintro (h | rfl | h)
        · exact Or.inl h
        · exact Or.inl hx
        · exact Or.inr h
    · simp only [if_neg hx, List.mem_append, List.mem_singleton, List.mem_cons]
      tauto

theorem mem_mkdirParentsExistOk (ds : List (List String)) (rel : List String)
    (q : List String) :
    q ∈ mkdirParentsExistOk ds rel ↔ q ∈ ds ∨ q ∈ initialSegs rel := by
  exact mem_dedup_append_fold (initialSegs rel) ds q

theorem copy_fmf_fold_characterization (failCopy : List String → Bool) :
    ∀ (overlay : List WalkEntry) (acc : (Nat × Nat) × FS),
      (∀ p, getFile (overlay.foldl (copy_fmf_step failCopy) acc).2.files p =
        (if failCopy p = true then getFile acc.2.files p
         else firstSome (overlayFile p overlay) (getFile acc.2.files p))) ∧
      (∀ q, q ∈ (overlay.foldl (copy_fmf_step failCopy) acc).2.dirs ↔
        q ∈ acc.2.dirs ∨ ∃ e, e ∈ overlay ∧ q ∈ initialSegs e.rel) := by
  intro overlay
  induction overlay with
  | nil =>
    intro acc
    constructor
    · intro p
      by_cases hp : failCopy p = true <;> simp [hp, overlayFile, firstSome]
    · intro q; simp
  | cons e rest ih =>
    intro acc
    rw [List.foldl_cons]
    obtain ⟨ihf, ihd⟩ := ih (copy_fmf_step failCopy acc e)
    constructor
    · intro p
      rw [ihf p]
      have hstep : getFile (copy_fmf_step failCopy acc e).2.files p =
          (if failCopy p = true then getFile acc.2.files p
           else firstSome (fileInFiles e.rel p e.files) (getFile acc.2.files p)) :=
        getFile_files_fold failCopy e.rel p e.files acc.1.1 acc.2.files
      rw [hstep]
      by_cases hp : failCopy p = true
      · simp [hp]
      · simp only [hp, Bool.false_eq_true, if_false]
        rw [firstSome_assoc]
        rfl
    · intro q
      rw [ihd q]
      have hdirs : (copy_fmf_step failCopy acc e).2.dirs =
          mkdirParentsExistOk acc.2.dirs e.rel := rfl
      rw [hdirs, mem_mkdirParentsExistOk]
      constructor
      · rintro ((h | h) | ⟨e', he', hq⟩)
        · exact Or.inl h
        · exact Or.inr ⟨e, List.mem_cons_self e rest, h⟩
        · exact Or.inr ⟨e', List.mem_cons_of_mem e he', hq⟩
      · rintro (h | ⟨e', he', hq⟩)
        · exact Or.inl (Or.inl h)
        · rcases List.mem_cons.mp he' with rfl | hmem
          · exact Or.inl (Or.inr hq)
          · exact Or.inr ⟨e', hmem, hq⟩

/-- Overlay carrying one root-level file `readme.txt`. -/
def exOverlay : List WalkEntry := [⟨[], [("readme.txt", "hello")]⟩]

/-- Injected `shutil.copy2` failure at the destination path `readme.txt`. -/
def exFailCopy : List String → Bool := fun p => decide (p = ["readme.txt"])

/-- Claim C9, counterexample: when the single overlay file's `shutil.copy2`
raises, `copy_fmf_to_game` logs it, skips it and completes normally
(returning zero copy counts), and the file the overlay carries never
arrives at its mirrored destination path — contradicting "every file of
the overlay ends up at the same relative path under the destination". -/
theorem copy_fmf_failed_copy_skipped_cex :
    overlayFile ["readme.txt"] exOverlay = some "hello" ∧
    (copy_fmf_to_game exFailCopy true exOverlay ⟨[], []⟩).1 = (0, 0) ∧
    getFile (copy_fmf_to_game exFailCopy true exOverlay ⟨[], []⟩).2.files
      ["readme.txt"] = none :=
  ⟨rfl, rfl, rfl⟩

/-- Claim C9 as amended: on an existing overlay the merge mirrors the
overlay up to per-file copy failures — at every destination path whose
copy did not fail, the overlay's (last-written) bytes land, unconditionally
overwriting any pre-existing destination file; at a path whose
`shutil.copy2` raised, the file is skipped and the destination keeps its
previous content; no other file path is changed or introduced; and the
destination directories grow by exactly the initial segments of the
overlay's directory paths (directory creation precedes the file copies and
is unaffected by their failures). -/
theorem copy_fmf_to_game_mirrors (failCopy : List String → Bool)
    (overlay : List WalkEntry) (game : FS) :
    (∀ p, getFile (copy_fmf_to_game failCopy true overlay game).2.files p =
      (if failCopy p = true then getFile game.files p
       else firstSome (overlayFile p overlay) (getFile game.files p))) ∧
    (∀ q, q ∈ (copy_fmf_to_game failCopy true overlay game).2.dirs ↔
      q ∈ game.dirs ∨ ∃ e, e ∈ overlay ∧ q ∈ initialSegs e.rel) := by
  have h := copy_fmf_fold_characterization failCopy overlay ((0, 0), game)
  exact ⟨fun p => by simpa [copy_fmf_to_game] using h.1 p,
    fun q => by simpa [copy_fmf_to_game] using h.2 q⟩

end MwcLoader
